import Mathlib

/-!
Verification development for the PreAuth_Agent repository.

The definitions below are a shallow embedding of the Python sources:
  - src/core/reasoning_agent.py   (ReasoningAgent._local_reasoning and helpers)
  - src/core/faiss_manager.py     (FAISSManager.build_index / search)
  - src/core/embedding_service.py (LocalEmbeddingService.create_embedding)
  - src/core/prior_auth_system.py / end_to_end_flow.py (SOP-text resolution step)

Python strings are modelled as Lean `String` (list of characters); Python's
substring operator `in` is modelled by an explicit containment function;
Python floats that only ever hold short decimal literals are modelled as `ℚ`;
code that can raise is modelled with `Except`/`Option`.
-/

namespace PreAuth

/-- The six characters removed by Python's `str.strip()` (ASCII fragment of
Python's whitespace set; all inputs in this development are ASCII). -/
def isPySpace (c : Char) : Bool :=
  c == ' ' || c == '\t' || c == '\n' || c == '\r' || c == '\x0b' || c == '\x0c'

/-- `listStarts hay needle` : does `hay` begin with `needle`?  (Building block
for Python's substring operator.) -/
def listStarts : List Char → List Char → Bool
  | _, [] => true
  | [], _ :: _ => false
  | a :: as, b :: bs => a == b && listStarts as bs

/-- `listHasSub hay needle` : does `needle` occur contiguously inside `hay`?
Model of Python's `needle in hay` on strings. -/
def listHasSub : List Char → List Char → Bool
  | [], needle => listStarts [] needle
  | a :: t, needle => listStarts (a :: t) needle || listHasSub t needle

/-- Model of Python's `needle in hay` substring test. -/
def strContains (hay needle : String) : Bool :=
  listHasSub hay.toList needle.toList

/-- Model of Python's `s.upper()` (ASCII case mapping). -/
def pyUpper (s : String) : String :=
  ⟨s.toList.map Char.toUpper⟩

/-- Model of Python's `s.lower()` (ASCII case mapping). -/
def pyLower (s : String) : String :=
  ⟨s.toList.map Char.toLower⟩

/-- Model of Python's `s[:3]`. -/
def take3 (s : String) : String :=
  ⟨s.toList.take 3⟩

/-- `str.strip()` on the underlying character list: drop leading and trailing
whitespace. -/
def stripList (l : List Char) : List Char :=
  ((l.dropWhile isPySpace).reverse.dropWhile isPySpace).reverse

/-- Model of Python's `s.strip()`. -/
def pyStrip (s : String) : String :=
  ⟨stripList s.toList⟩

/-- Numeric value of a list of decimal digit characters (most significant
first), as read by Python's `float`. -/
def natOfDigits (ds : List Char) : ℕ :=
  ds.foldl (fun n c => 10 * n + (c.toNat - '0'.toNat)) 0

/-- Model of matching the regex fragment `\d+\.?\d*` at the head of `l` and
converting the match with Python's `float`: one or more digits, an optional
dot, then any further digits.  Returns `none` when no digit starts `l`.
The decimal literal is modelled exactly as a rational. -/
def parseLabNumber (l : List Char) : Option ℚ :=
  let ds := l.takeWhile Char.isDigit
  if ds.isEmpty then none
  else
    let rest := l.drop ds.length
    let frac :=
      match rest with
      | '.' :: r => r.takeWhile Char.isDigit
      | _ => []
    some ((natOfDigits ds : ℚ) + (natOfDigits frac : ℚ) / (10 : ℚ) ^ frac.length)

/-- Scan of `re.search`: try the pattern (literal `needle` then a number) at
each position, left to right, returning the first full match. -/
def findNumberAfter (needle : List Char) : List Char → Option ℚ
  | [] => if listStarts [] needle then parseLabNumber [] else none
  | a :: t =>
    match (if listStarts (a :: t) needle then parseLabNumber ((a :: t).drop needle.length) else none) with
    | some v => some v
    | none => findNumberAfter needle t

/-- Model of `ReasoningAgent._extract_lab_value` (reasoning_agent.py lines
118-127): `re.search(rf'\x7blab_name\x7d:(\d+\.?\d*)', lab_results, re.IGNORECASE)`,
then `float` of the captured group; `None` when the pattern never matches.
Case insensitivity is modelled by lowering both operands. -/
def extract_lab_value (lab_results lab_name : String) : Option ℚ :=
  findNumberAfter ((pyLower lab_name).toList ++ [':']) (pyLower lab_results).toList

/-- Auxiliary splitter for Python's `s.split('\n')`: `acc` holds the current
line reversed. -/
def splitNlAux : List Char → List Char → List (List Char)
  | [], acc => [acc.reverse]
  | '\n' :: t, acc => acc.reverse :: splitNlAux t []
  | c :: t, acc => splitNlAux t (c :: acc)

/-- Model of Python's `s.split('\n')`. -/
def pySplitNl (s : String) : List String :=
  (splitNlAux s.toList []).map fun l => ⟨l⟩

/-- Model of `ReasoningAgent._extract_sop_reference` (reasoning_agent.py lines
129-135): the first line containing "AUTHORIZATION" or "GUIDELINES"
(after upcasing), stripped; else the fallback "Medical SOP". -/
def extract_sop_reference (sop_context : String) : String :=
  match (pySplitNl sop_context).find?
      (fun line => strContains (pyUpper line) "AUTHORIZATION" || strContains (pyUpper line) "GUIDELINES") with
  | some line => pyStrip line
  | none => "Medical SOP"

/-- One justification entry appended by `_local_reasoning`: the satisfied flag
(✓ versus ✗ in the Python string) plus the evidence text. -/
structure JEntry where
  satisfied : Bool
  text : String
deriving DecidableEq, Repr

/-- Running state of `_local_reasoning`: the `decision` variable and the
`reasoning_points` list. -/
structure RState where
  decision : String
  points : List JEntry
deriving DecidableEq, Repr

/-- Model of the patient dictionary passed to `_local_reasoning`; each field is
optional because the Python code reads every field with `dict.get` and a
default. -/
structure PatientData where
  patient_id : Option Int := none
  name : Option String := none
  age : Option Int := none
  gender : Option String := none
  diagnosis_code : Option String := none
  procedure_code : Option String := none
  lab_results : Option String := none
  previous_procedures : Option String := none
deriving DecidableEq, Repr

/-- Model of the dictionary returned by `_local_reasoning`. -/
structure ReasonResult where
  decision : String
  reasoning : String
  patient_id : Option Int
  procedure_code : String
  diagnosis_code : String
deriving DecidableEq, Repr

/-- Check 1 of `_local_reasoning` (lines 58-63): diagnosis-code match.
`if diagnosis_code in sop_upper or diagnosis_code[:3] in sop_upper`. -/
def check_diagnosis (diagnosis_code sop_upper : String) (st : RState) : RState :=
  if strContains sop_upper diagnosis_code = true ∨ strContains sop_upper (take3 diagnosis_code) = true then
    ⟨"Approved", st.points ++ [⟨true, "✓ Diagnosis code " ++ diagnosis_code ++ " matches SOP criteria"⟩]⟩
  else
    ⟨st.decision, st.points ++ [⟨false, "✗ Diagnosis code " ++ diagnosis_code ++ " not found in SOP criteria"⟩]⟩

/-- Check 2 of `_local_reasoning` (lines 65-71): procedure-code match; the
inner guard `if decision != "Approved"` is reproduced verbatim. -/
def check_procedure (procedure_code sop_upper : String) (st : RState) : RState :=
  if strContains sop_upper procedure_code = true then
    ⟨if st.decision ≠ "Approved" then "Approved" else st.decision,
      st.points ++ [⟨true, "✓ Procedure code " ++ procedure_code ++ " is covered in SOP"⟩]⟩
  else
    ⟨st.decision, st.points ++ [⟨false, "✗ Procedure code " ++ procedure_code ++ " not explicitly covered"⟩]⟩

/-- Check 3 of `_local_reasoning` (lines 73-79): age-based criteria.  Note the
`if / elif` shape: when neither branch fires, no entry is appended. -/
def check_age (age : Int) (sop_upper : String) (st : RState) : RState :=
  if 50 < age ∧ strContains sop_upper "AGE >50" = true then
    ⟨"Approved", st.points ++ [⟨true, "✓ Patient age " ++ toString age ++ " meets >50 requirement"⟩]⟩
  else if age < 35 ∧ strContains sop_upper "AGE <35" = true ∧ strContains sop_upper "DENIED" = true then
    ⟨"Denied", st.points ++ [⟨false, "✗ Patient age " ++ toString age ++ " is <35, which is a denial criteria"⟩]⟩
  else st

/-- Check 4 of `_local_reasoning` (lines 81-90): HbA1c lab analysis.  The
Python truthiness test `if hba1c_value:` is false both for `None` and for the
float `0.0`.  The numeric payload of the evidence text is rendered with
`toString` on `ℚ` (Python prints the float's repr; no claim inspects it). -/
def check_lab (lab_results sop_upper : String) (st : RState) : RState :=
  if strContains lab_results "hba1c" = true then
    match extract_lab_value lab_results "hba1c" with
    | some v =>
      if v ≠ 0 then
        if 7 < v ∧ strContains sop_upper ">7.0" = true then
          ⟨"Approved", st.points ++ [⟨true, "✓ HbA1c " ++ toString v ++ " > 7.0 supports authorization"⟩]⟩
        else if v < 6 ∧ strContains sop_upper "<6.0" = true ∧ strContains sop_upper "DENIED" = true then
          ⟨"Denied", st.points ++ [⟨false, "✗ HbA1c " ++ toString v ++ " < 6.0 indicates good control, authorization not needed"⟩]⟩
        else st
      else st
    | none => st
  else st

/-- Check 5 of `_local_reasoning` (lines 92-95): hypertension cross-reference.
`diagnosis_code` here is the already-uppercased local variable; the code
lowers it again. -/
def check_hypertension (diagnosis_code sop_context : String) (st : RState) : RState :=
  if strContains (pyLower diagnosis_code) "i10" = true ∧ strContains (pyLower sop_context) "hypertension" = true then
    ⟨"Approved", st.points ++ [⟨true, "✓ Hypertension diagnosis (I10) matches cardiology SOP criteria"⟩]⟩
  else st

/-- Check 6 of `_local_reasoning` (lines 97-100): previous procedures.
Python's truthiness of the string `previous_procedures` is nonemptiness. -/
def check_previous (previous_procedures sop_context : String) (st : RState) : RState :=
  if previous_procedures ≠ "" ∧ strContains (pyLower sop_context) "previous" = true then
    ⟨"Approved", st.points ++ [⟨true, "✓ Previous procedures documented, supporting current request"⟩]⟩
  else st

/-- The six checks of `_local_reasoning` folded in source order over the
initial state `decision = "Denied"`, `reasoning_points = []`, with the local
variables extracted exactly as in lines 44-56. -/
def localReasoningState (p : PatientData) (sop_context : String) : RState :=
  let diagnosis_code := pyUpper (p.diagnosis_code.getD "")
  let procedure_code := p.procedure_code.getD ""
  let age := p.age.getD 0
  let lab_results := pyLower (p.lab_results.getD "")
  let previous_procedures := p.previous_procedures.getD ""
  let sop_upper := pyUpper sop_context
  check_previous previous_procedures sop_context
    (check_hypertension diagnosis_code sop_context
      (check_lab lab_results sop_upper
        (check_age age sop_upper
          (check_procedure procedure_code sop_upper
            (check_diagnosis diagnosis_code sop_upper ⟨"Denied", []⟩)))))

/-- Model of `ReasoningAgent._local_reasoning` (reasoning_agent.py lines
38-116): run the six checks, join the evidence with " | ", and append the SOP
reference when it is truthy (a nonempty string). -/
def localReasoning (p : PatientData) (sop_context : String) : ReasonResult :=
  let st := localReasoningState p sop_context
  let reasoning0 := String.intercalate " | " (st.points.map JEntry.text)
  let ref := extract_sop_reference sop_context
  let reasoning := if ref ≠ "" then reasoning0 ++ " | Applied SOP: " ++ ref else reasoning0
  ⟨st.decision, reasoning, p.patient_id, p.procedure_code.getD "", pyUpper (p.diagnosis_code.getD "")⟩

/-- Condition under which check 3 appends an entry (either of its branches). -/
def age_check_fires (age : Int) (sop_upper : String) : Bool :=
  decide (50 < age ∧ strContains sop_upper "AGE >50" = true) ||
  decide (age < 35 ∧ strContains sop_upper "AGE <35" = true ∧ strContains sop_upper "DENIED" = true)

/-- Condition under which check 4 appends an entry (either of its branches). -/
def lab_check_fires (lab_results sop_upper : String) : Bool :=
  strContains lab_results "hba1c" &&
    match extract_lab_value lab_results "hba1c" with
    | some v =>
      decide (v ≠ 0) &&
        (decide (7 < v ∧ strContains sop_upper ">7.0" = true) ||
         decide (v < 6 ∧ strContains sop_upper "<6.0" = true ∧ strContains sop_upper "DENIED" = true))
    | none => false

/-- Condition under which check 5 appends an entry. -/
def hyp_check_fires (diagnosis_code sop_context : String) : Bool :=
  strContains (pyLower diagnosis_code) "i10" && strContains (pyLower sop_context) "hypertension"

/-- Condition under which check 6 appends an entry. -/
def prev_check_fires (previous_procedures sop_context : String) : Bool :=
  decide (previous_procedures ≠ "") && strContains (pyLower sop_context) "previous"

/-!  ### Vector index (src/core/faiss_manager.py)

The `faiss.IndexFlatL2` calls are modelled after the library's documented
behaviour: exact squared-L2 nearest-neighbour search that ALWAYS returns `k`
result slots per query, padding the slots beyond `ntotal` with label `-1` and
a float sentinel distance (FLT_MAX; its exact value is irrelevant to every
property proved here).  Machine floats are idealized as rationals. -/

/-- The sentinel distance faiss leaves in result slots beyond `ntotal`
(FLT_MAX = 2^128 - 2^104 as a rational). -/
def FAISS_PAD_DIST : ℚ := 340282346638528859811704183484516925440

/-- Squared Euclidean distance between two vectors (the metric of
`faiss.IndexFlatL2`). -/
def sqDist (a b : List ℚ) : ℚ :=
  ((a.zip b).map (fun p => (p.1 - p.2) * (p.1 - p.2))).sum

/-- Comparison of search candidates by distance. -/
def distLE (a b : ℚ × Int) : Prop := a.1 ≤ b.1

instance : DecidableRel distLE := fun a b => inferInstanceAs (Decidable (a.1 ≤ b.1))

instance : IsTotal (ℚ × Int) distLE := ⟨fun a b => le_total a.1 b.1⟩

instance : IsTrans (ℚ × Int) distLE := ⟨fun _ _ _ h1 h2 => le_trans h1 h2⟩

/-- Model of a built `faiss.IndexFlatL2`: the declared dimensionality and the
stored vectors in insertion order (`ntotal` = their number). -/
structure FlatIndex where
  d : ℕ
  vecs : List (List ℚ)
deriving DecidableEq, Repr

/-- Model of Python's `enumerate` starting at `i`. -/
def enumFromIdx (i : ℕ) : List α → List (ℕ × α)
  | [] => []
  | a :: t => (i, a) :: enumFromIdx (i + 1) t

/-- Model of `index.search(query, k)` on `faiss.IndexFlatL2` for one query:
the `min k ntotal` nearest (distance, label) pairs sorted by non-decreasing
distance, followed by `k - ntotal` sentinel slots `(FLT_MAX, -1)`. -/
def searchFlat (ix : FlatIndex) (q : List ℚ) (k : ℕ) : List (ℚ × Int) :=
  let pairs := (enumFromIdx 0 ix.vecs).map (fun p => (sqDist q p.2, (p.1 : Int)))
  (List.insertionSort distLE pairs).take k ++
    List.replicate (k - ix.vecs.length) (FAISS_PAD_DIST, -1)

/-- Model of a 2-D `numpy` float array of shape `(rows.length, cols)`; numpy
arrays are rectangular, recorded by `hrows`. -/
structure NpMatrix where
  cols : ℕ
  rows : List (List ℚ)
  hrows : rows.all (fun r => r.length == cols) = true

/-- Model of the `FAISSManager` object state: declared dimension, the optional
built index (`None` before `build_index`/`load_index`), and `document_map`
(int key, document name; the per-entry `'index'` field is redundant and
omitted). -/
structure FAISSManager where
  embedding_dim : ℕ
  index : Option FlatIndex
  document_map : List (ℕ × String)
deriving DecidableEq, Repr

/-- Model of `FAISSManager.__init__` (faiss_manager.py lines 19-22). -/
def initManager (embedding_dim : ℕ) : FAISSManager :=
  ⟨embedding_dim, none, []⟩

/-- Model of `FAISSManager.build_index` (faiss_manager.py lines 24-53).  On a
dimension mismatch the code tries to raise `ValueError`, but the message
f-string indexes `embeddings.shape[11]`, so what actually escapes is an
`IndexError` from the 2-element shape tuple.  No length comparison between
`embeddings` and `document_names` is performed; `if document_names:` is
Python truthiness (skipped for `None` and for `[]`, in which case the
pre-existing map — empty for a fresh manager — is kept). -/
def build_index (m : FAISSManager) (embeddings : NpMatrix)
    (document_names : Option (List String)) : Except String FAISSManager :=
  if embeddings.cols ≠ m.embedding_dim then
    Except.error "IndexError: tuple index out of range"
  else
    let dmap :=
      match document_names with
      | some ns => if ns.isEmpty then m.document_map else enumFromIdx 0 ns
      | none => m.document_map
    Except.ok { m with index := some ⟨m.embedding_dim, embeddings.rows⟩, document_map := dmap }

/-- Lookup of a faiss label in `document_map` (`if idx in self.document_map`);
the label is a possibly negative machine integer, the keys are naturals. -/
def mapLookup (dmap : List (ℕ × String)) (i : Int) : Option String :=
  (dmap.find? (fun p => ((p.1 : Int) == i))).map (fun p => p.2)

/-- Model of `FAISSManager.search` (faiss_manager.py lines 55-79): fails when
no index was built, otherwise returns the triple
(distances, labels, document names), where a label absent from
`document_map` is rendered as "Document_" followed by the label. -/
def search (m : FAISSManager) (query_embedding : List ℚ) (k : ℕ) :
    Except String (List ℚ × List Int × List String) :=
  match m.index with
  | none => Except.error "Index not initialized. Call build_index() first."
  | some ix =>
    let res := searchFlat ix query_embedding k
    let doc_names := res.map (fun p =>
      match mapLookup m.document_map p.2 with
      | some n => n
      | none => "Document_" ++ toString p.2)
    Except.ok (res.map Prod.fst, res.map Prod.snd, doc_names)

/-!  ### Embedding generator (src/core/embedding_service.py) -/

/-- Model of `LocalEmbeddingService.create_embedding` (embedding_service.py
lines 24-31).  The loaded sentence-transformer model is opaque: it is passed
as the function `encode`, and `dim` stands for
`model.get_sentence_embedding_dimension()`.  Empty / whitespace-only text
short-circuits to the zero vector without touching `encode`. -/
def create_embedding (dim : ℕ) (encode : String → List ℚ) (text : String) : List ℚ :=
  if pyStrip text = "" then List.replicate dim 0 else encode text

/-!  ### Pipeline SOP-text resolution (src/core/prior_auth_system.py lines
110-113 and src/core/end_to_end_flow.py lines 101-104) -/

/-- Model of Python's `self.sop_texts.get(best_sop_name, '')`. -/
def textLookup (sop_texts : List (String × String)) (key : String) : Option String :=
  (sop_texts.find? (fun p => p.1 == key)).map (fun p => p.2)

/-- Model of the SOP-text resolution step: `sop_texts.get(name, '')` followed
by `if not sop_text: sop_text = "No SOP content available"`. -/
def resolve_sop_text (sop_texts : List (String × String)) (best_sop_name : String) : String :=
  let sop_text := (textLookup sop_texts best_sop_name).getD ""
  if sop_text = "" then "No SOP content available" else sop_text

/-- The pipeline tail after retrieval: resolve the matched document's text and
invoke the reasoning agent on it (prior_auth_system.py lines 110-121). -/
def pipeline_decide (sop_texts : List (String × String)) (best_sop_name : String)
    (patient : PatientData) : ReasonResult :=
  localReasoning patient (resolve_sop_text sop_texts best_sop_name)

/-!  ### Concrete inputs used by counterexamples and witnesses -/

/-- A patient dictionary with every field absent. -/
def emptyPatient : PatientData := {}

/-- Patient for the override counterexample: hypertension diagnosis, age 30,
a procedure code not present in the policy text. -/
def ceP1 : PatientData :=
  { diagnosis_code := some "I10", procedure_code := some "XQZ", age := some 30 }

/-- Policy text for the override counterexample: states the under-35 denial
criterion and mentions hypertension. -/
def ceSop1 : String := "age <35 denied hypertension"

/-- The running state of `_local_reasoning` on `ceP1`/`ceSop1` after check 3
(the age threshold). -/
def c1afterAge : RState :=
  check_age 30 (pyUpper ceSop1)
    (check_procedure "XQZ" (pyUpper ceSop1)
      (check_diagnosis (pyUpper "I10") (pyUpper ceSop1) ⟨"Denied", []⟩))

/-- 1-dimensional embedding matrix with two rows, for the index
counterexamples and witnesses. -/
def mtx2 : NpMatrix := ⟨1, [[0], [3]], rfl⟩

/-- 1-dimensional embedding matrix with zero rows (a valid `numpy` array of
shape (0, 1)). -/
def mtx0 : NpMatrix := ⟨1, [], rfl⟩

/-- The manager produced by building `mtx2` with the two names "a", "b". -/
def builtM2 : FAISSManager :=
  ⟨1, some ⟨1, [[0], [3]]⟩, [(0, "a"), (1, "b")]⟩

/-- The manager produced by building `mtx2` with the single name "a". -/
def builtM2short : FAISSManager :=
  ⟨1, some ⟨1, [[0], [3]]⟩, [(0, "a")]⟩

/-- The manager produced by building the empty matrix `mtx0` with no names. -/
def builtM0 : FAISSManager :=
  ⟨1, some ⟨1, []⟩, []⟩

/-- A patient used by witnesses: age 60, no other fields. -/
def ceP2 : PatientData := { age := some 60 }

/-- 1-dimensional embedding matrix with a single row. -/
def mtx1 : NpMatrix := ⟨1, [[0]], rfl⟩

/-- The manager produced by building `mtx1` with the single name "a". -/
def builtM1 : FAISSManager :=
  ⟨1, some ⟨1, [[0]]⟩, [(0, "a")]⟩

/-!  ## Lemmas -/

theorem toList_mk (l : List Char) : (⟨l⟩ : String).toList = l := rfl

theorem mk_eq_empty_iff (l : List Char) : (⟨l⟩ : String) = "" ↔ l = [] :=
  ⟨fun h => congrArg String.data h, fun h => by rw [h]⟩

theorem listStarts_nil (needle : List Char) :
    listStarts [] needle = true ↔ needle = [] := by
  cases needle <;> simp [listStarts]

theorem listStarts_empty_needle (hay : List Char) : listStarts hay [] = true := by
  cases hay <;> rfl

theorem listHasSub_empty_needle (hay : List Char) : listHasSub hay [] = true := by
  cases hay <;> simp [listHasSub, listStarts_empty_needle]

theorem strContains_empty_needle (hay : String) : strContains hay "" = true :=
  listHasSub_empty_needle hay.toList

theorem listStarts_head_eq {a b : Char} {as bs : List Char}
    (h : listStarts (a :: as) (b :: bs) = true) : b = a := by
  simp only [listStarts, Bool.and_eq_true, beq_iff_eq] at h
  exact h.1.symm

theorem listHasSub_head_mem {hay : List Char} {b : Char} {bs : List Char}
    (h : listHasSub hay (b :: bs) = true) : b ∈ hay := by
  induction hay with
  | nil => simp [listHasSub, listStarts] at h
  | cons a t ih =>
    simp only [listHasSub, Bool.or_eq_true] at h
    rcases h with h | h
    · rw [listStarts_head_eq h]
      exact List.mem_cons_self a t
    · exact List.mem_cons_of_mem a (ih h)

theorem dropWhile_eq_nil_of_all {p : Char → Bool} :
    ∀ {l : List Char}, (∀ c ∈ l, p c = true) → l.dropWhile p = []
  | [], _ => rfl
  | a :: t, h => by
    have ha : p a = true := h a (List.mem_cons_self a t)
    simp only [List.dropWhile_cons, ha, if_true]
    exact dropWhile_eq_nil_of_all fun c hc => h c (List.mem_cons_of_mem a hc)

theorem all_of_dropWhile_eq_nil {p : Char → Bool} :
    ∀ {l : List Char}, l.dropWhile p = [] → ∀ c ∈ l, p c = true
  | [], _, c, hc => by simp at hc
  | a :: t, h, c, hc => by
    by_cases ha : p a = true
    · simp only [List.dropWhile_cons, ha, if_true] at h
      rcases List.mem_cons.mp hc with rfl | hct
      · exact ha
      · exact all_of_dropWhile_eq_nil h c hct
    · simp only [List.dropWhile_cons, ha] at h
      simp at h

theorem all_of_dropWhile_all {p : Char → Bool} :
    ∀ {l : List Char}, (∀ c ∈ l.dropWhile p, p c = true) → ∀ c ∈ l, p c = true
  | [], _, c, hc => by simp at hc
  | a :: t, h, c, hc => by
    by_cases ha : p a = true
    · rcases List.mem_cons.mp hc with rfl | hct
      · exact ha
      · have h2 : ∀ x ∈ t.dropWhile p, p x = true := by
          intro x hx
          apply h
          simpa [List.dropWhile_cons, ha] using hx
        exact all_of_dropWhile_all h2 c hct
    · have hdw : (a :: t).dropWhile p = a :: t := by
        simp [List.dropWhile_cons, ha]
      exact h c (by rw [hdw]; exact hc)

theorem stripList_eq_nil_iff (l : List Char) :
    stripList l = [] ↔ ∀ c ∈ l, isPySpace c = true := by
  unfold stripList
  rw [List.reverse_eq_nil_iff]
  constructor
  · intro h c hc
    have h1 : ∀ c ∈ (l.dropWhile isPySpace).reverse, isPySpace c = true :=
      all_of_dropWhile_eq_nil h
    have h2 : ∀ c ∈ l.dropWhile isPySpace, isPySpace c = true := by
      intro x hx
      exact h1 x (List.mem_reverse.mpr hx)
    exact all_of_dropWhile_all h2 c hc
  · intro h
    apply dropWhile_eq_nil_of_all
    intro c hc
    have hc2 : c ∈ l.dropWhile isPySpace := List.mem_reverse.mp hc
    exact h c ((List.dropWhile_sublist isPySpace).subset hc2)

theorem pyStrip_eq_empty_iff (s : String) :
    pyStrip s = "" ↔ ∀ c ∈ s.toList, isPySpace c = true := by
  unfold pyStrip
  rw [mk_eq_empty_iff]
  exact stripList_eq_nil_iff s.toList

theorem toUpper_of_space {c : Char} (h : isPySpace c = true) : c.toUpper = c := by
  simp only [isPySpace, Bool.or_eq_true, beq_iff_eq] at h
  rcases h with ((((rfl | rfl) | rfl) | rfl) | rfl) | rfl <;> decide

theorem extract_sop_reference_ne_empty (sop_context : String) :
    extract_sop_reference sop_context ≠ "" := by
  unfold extract_sop_reference
  cases hfind : (pySplitNl sop_context).find?
      (fun line => strContains (pyUpper line) "AUTHORIZATION" || strContains (pyUpper line) "GUIDELINES") with
  | none => decide
  | some line =>
    have hp := List.find?_some hfind
    simp only [Bool.or_eq_true] at hp
    intro hstrip
    have hall : ∀ c ∈ line.toList, isPySpace c = true :=
      (pyStrip_eq_empty_iff line).mp hstrip
    have hupper : ∀ c ∈ (pyUpper line).toList, isPySpace c = true := by
      intro c hc
      unfold pyUpper at hc
      rw [toList_mk] at hc
      simp only [List.mem_map] at hc
      obtain ⟨b, hb, rfl⟩ := hc
      rw [toUpper_of_space (hall b hb)]
      exact hall b hb
    rcases hp with hp | hp
    · have hA : 'A' ∈ (pyUpper line).toList := listHasSub_head_mem hp
      have := hupper 'A' hA
      simp [isPySpace] at this
    · have hG : 'G' ∈ (pyUpper line).toList := listHasSub_head_mem hp
      have := hupper 'G' hG
      simp [isPySpace] at this

theorem check_diagnosis_decision (dc sopU : String) (st : RState) :
    (check_diagnosis dc sopU st).decision = st.decision ∨
      (check_diagnosis dc sopU st).decision = "Approved" := by
  unfold check_diagnosis
  split
  · exact Or.inr rfl
  · exact Or.inl rfl

theorem check_procedure_decision (pc sopU : String) (st : RState) :
    (check_procedure pc sopU st).decision = st.decision ∨
      (check_procedure pc sopU st).decision = "Approved" := by
  unfold check_procedure
  split
  · dsimp only
    split
    · exact Or.inr rfl
    · exact Or.inl rfl
  · exact Or.inl rfl

theorem check_age_decision (age : Int) (sopU : String) (st : RState) :
    (check_age age sopU st).decision = st.decision ∨
      (check_age age sopU st).decision = "Approved" ∨
      (check_age age sopU st).decision = "Denied" := by
  unfold check_age
  split
  · exact Or.inr (Or.inl rfl)
  · split
    · exact Or.inr (Or.inr rfl)
    · exact Or.inl rfl

theorem check_lab_decision (lab sopU : String) (st : RState) :
    (check_lab lab sopU st).decision = st.decision ∨
      (check_lab lab sopU st).decision = "Approved" ∨
      (check_lab lab sopU st).decision = "Denied" := by
  unfold check_lab
  split
  · split
    · split
      · split
        · exact Or.inr (Or.inl rfl)
        · split
          · exact Or.inr (Or.inr rfl)
          · exact Or.inl rfl
      · exact Or.inl rfl
    · exact Or.inl rfl
  · exact Or.inl rfl

theorem check_hypertension_decision (dc sop : String) (st : RState) :
    (check_hypertension dc sop st).decision = st.decision ∨
      (check_hypertension dc sop st).decision = "Approved" := by
  unfold check_hypertension
  split
  · exact Or.inr rfl
  · exact Or.inl rfl

theorem check_previous_decision (prev sop : String) (st : RState) :
    (check_previous prev sop st).decision = st.decision ∨
      (check_previous prev sop st).decision = "Approved" := by
  unfold check_previous
  split
  · exact Or.inr rfl
  · exact Or.inl rfl

theorem check_hypertension_fires_approved (dc sop : String) (st : RState)
    (h1 : strContains (pyLower dc) "i10" = true)
    (h2 : strContains (pyLower sop) "hypertension" = true) :
    (check_hypertension dc sop st).decision = "Approved" := by
  unfold check_hypertension
  rw [if_pos ⟨h1, h2⟩]

theorem check_previous_fires_approved (prev sop : String) (st : RState)
    (h1 : prev ≠ "") (h2 : strContains (pyLower sop) "previous" = true) :
    (check_previous prev sop st).decision = "Approved" := by
  unfold check_previous
  rw [if_pos ⟨h1, h2⟩]

theorem liftAD {out st : RState}
    (h2 : out.decision = st.decision ∨ out.decision = "Approved" ∨ out.decision = "Denied")
    (h : st.decision = "Approved" ∨ st.decision = "Denied") :
    out.decision = "Approved" ∨ out.decision = "Denied" := by
  rcases h2 with h2 | h2 | h2
  · rw [h2]; exact h
  · exact Or.inl h2
  · exact Or.inr h2

theorem state_decision_cases (p : PatientData) (sop : String) :
    (localReasoningState p sop).decision = "Approved" ∨
      (localReasoningState p sop).decision = "Denied" := by
  unfold localReasoningState
  refine liftAD ((check_previous_decision _ _ _).imp_right Or.inl) ?_
  refine liftAD ((check_hypertension_decision _ _ _).imp_right Or.inl) ?_
  refine liftAD (check_lab_decision _ _ _) ?_
  refine liftAD (check_age_decision _ _ _) ?_
  refine liftAD ((check_procedure_decision _ _ _).imp_right Or.inl) ?_
  refine liftAD ((check_diagnosis_decision _ _ _).imp_right Or.inl) ?_
  exact Or.inr rfl

theorem localReasoning_decision (p : PatientData) (sop : String) :
    (localReasoning p sop).decision = (localReasoningState p sop).decision := rfl

theorem localReasoning_reasoning (p : PatientData) (sop : String) :
    (localReasoning p sop).reasoning =
      (if extract_sop_reference sop ≠ "" then
        String.intercalate " | " ((localReasoningState p sop).points.map JEntry.text)
          ++ " | Applied SOP: " ++ extract_sop_reference sop
      else
        String.intercalate " | " ((localReasoningState p sop).points.map JEntry.text)) := rfl

theorem decision_total (p : PatientData) (sop : String) :
    (localReasoning p sop).decision = "Approved" ∨
      (localReasoning p sop).decision = "Denied" := by
  rw [localReasoning_decision]
  exact state_decision_cases p sop

theorem len_check_diagnosis (dc sopU : String) (st : RState) :
    (check_diagnosis dc sopU st).points.length = st.points.length + 1 := by
  unfold check_diagnosis
  split <;> simp

theorem len_check_procedure (pc sopU : String) (st : RState) :
    (check_procedure pc sopU st).points.length = st.points.length + 1 := by
  unfold check_procedure
  split <;> simp

theorem len_check_age (age : Int) (sopU : String) (st : RState) :
    (check_age age sopU st).points.length =
      st.points.length + (if age_check_fires age sopU = true then 1 else 0) := by
  unfold check_age age_check_fires
  by_cases h1 : 50 < age ∧ strContains sopU "AGE >50" = true
  · simp [h1]
  · by_cases h2 : age < 35 ∧ strContains sopU "AGE <35" = true ∧ strContains sopU "DENIED" = true
    · simp [h1, h2]
    · simp [h1, h2]

theorem len_check_lab (lab sopU : String) (st : RState) :
    (check_lab lab sopU st).points.length =
      st.points.length + (if lab_check_fires lab sopU = true then 1 else 0) := by
  unfold check_lab lab_check_fires
  by_cases hm : strContains lab "hba1c" = true
  · cases hv : extract_lab_value lab "hba1c" with
    | none => simp [hm, hv]
    | some v =>
      by_cases h0 : v ≠ 0
      · by_cases h1 : 7 < v ∧ strContains sopU ">7.0" = true
        · simp [hm, hv, h0, h1]
        · by_cases h2 : v < 6 ∧ strContains sopU "<6.0" = true ∧ strContains sopU "DENIED" = true
          · simp [hm, hv, h0, h1, h2]
          · simp [hm, hv, h0, h1, h2]
      · simp [hm, hv, h0]
  · simp [hm]

theorem len_check_hypertension (dc sop : String) (st : RState) :
    (check_hypertension dc sop st).points.length =
      st.points.length + (if hyp_check_fires dc sop = true then 1 else 0) := by
  unfold check_hypertension hyp_check_fires
  by_cases h : strContains (pyLower dc) "i10" = true ∧ strContains (pyLower sop) "hypertension" = true
  · simp [h.1, h.2]
  · rw [if_neg h]
    rcases Decidable.not_and_iff_or_not.mp h with h1 | h1 <;>
      simp [Bool.eq_false_iff.mpr h1]

theorem len_check_previous (prev sop : String) (st : RState) :
    (check_previous prev sop st).points.length =
      st.points.length + (if prev_check_fires prev sop = true then 1 else 0) := by
  unfold check_previous prev_check_fires
  by_cases h : prev ≠ "" ∧ strContains (pyLower sop) "previous" = true
  · simp [h, h.1, h.2]
  · rw [if_neg h]
    rcases Decidable.not_and_iff_or_not.mp h with h1 | h1
    · simp [h1]
    · simp [Bool.eq_false_iff.mpr h1]

theorem points_ext_diagnosis (dc sopU : String) (st : RState) :
    ∃ t, (check_diagnosis dc sopU st).points = st.points ++ t := by
  unfold check_diagnosis
  split <;> exact ⟨_, rfl⟩

theorem points_ext_procedure (pc sopU : String) (st : RState) :
    ∃ t, (check_procedure pc sopU st).points = st.points ++ t := by
  unfold check_procedure
  split <;> exact ⟨_, rfl⟩

theorem points_ext_age (age : Int) (sopU : String) (st : RState) :
    ∃ t, (check_age age sopU st).points = st.points ++ t := by
  unfold check_age
  split
  · exact ⟨_, rfl⟩
  · split
    · exact ⟨_, rfl⟩
    · exact ⟨[], (List.append_nil st.points).symm⟩

theorem points_ext_lab (lab sopU : String) (st : RState) :
    ∃ t, (check_lab lab sopU st).points = st.points ++ t := by
  unfold check_lab
  split
  · split
    · split
      · split
        · exact ⟨_, rfl⟩
        · split
          · exact ⟨_, rfl⟩
          · exact ⟨[], (List.append_nil st.points).symm⟩
      · exact ⟨[], (List.append_nil st.points).symm⟩
    · exact ⟨[], (List.append_nil st.points).symm⟩
  · exact ⟨[], (List.append_nil st.points).symm⟩

theorem points_ext_hypertension (dc sop : String) (st : RState) :
    ∃ t, (check_hypertension dc sop st).points = st.points ++ t := by
  unfold check_hypertension
  split
  · exact ⟨_, rfl⟩
  · exact ⟨[], (List.append_nil st.points).symm⟩

theorem points_ext_previous (prev sop : String) (st : RState) :
    ∃ t, (check_previous prev sop st).points = st.points ++ t := by
  unfold check_previous
  split
  · exact ⟨_, rfl⟩
  · exact ⟨[], (List.append_nil st.points).symm⟩

theorem check_lab_abstains (lab sopU : String) (st : RState)
    (hmark : strContains lab "hba1c" = true)
    (hnone : extract_lab_value lab "hba1c" = none) :
    check_lab lab sopU st = st := by
  unfold check_lab
  rw [if_pos hmark, hnone]

theorem len_enumFromIdx {α : Type} (i : ℕ) (l : List α) :
    (enumFromIdx i l).length = l.length := by
  induction l generalizing i with
  | nil => rfl
  | cons a t ih => simp [enumFromIdx, ih]

theorem map_snd_enumFromIdx {α : Type} (i : ℕ) (l : List α) :
    (enumFromIdx i l).map Prod.snd = l := by
  induction l generalizing i with
  | nil => rfl
  | cons a t ih => simp [enumFromIdx, ih]

theorem mapLookup_neg_one (dmap : List (ℕ × String)) : mapLookup dmap (-1) = none := by
  unfold mapLookup
  rw [List.find?_eq_none.mpr]
  · rfl
  · intro x _
    simp only [beq_iff_eq]
    omega

theorem length_searchFlat (ix : FlatIndex) (q : List ℚ) (k : ℕ) :
    (searchFlat ix q k).length = k := by
  unfold searchFlat
  simp only [List.length_append, List.length_take, List.length_insertionSort,
    List.length_map, len_enumFromIdx, List.length_replicate]
  omega

/-!  ## Claims -/

/-- Claim C1, counterexample: on patient `ceP1` (diagnosis I10, age 30,
procedure XQZ) against policy text `ceSop1`, the age-threshold check (3)
votes deny (its under-35 denial conditions hold and the running decision
after it is "Denied"), the lab check (4) abstains, the condition-keyword
check (5) then fires — and the final decision is "Approved": the later
approve vote DOES flip the running decision back, contradicting the claimed
finality of a threshold deny vote. -/
theorem C1_counterexample :
    ((30 : Int) < 35 ∧ strContains (pyUpper ceSop1) "AGE <35" = true ∧
        strContains (pyUpper ceSop1) "DENIED" = true) ∧
      c1afterAge.decision = "Denied" ∧
      check_lab (pyLower "") (pyUpper ceSop1) c1afterAge = c1afterAge ∧
      (strContains (pyLower (pyUpper "I10")) "i10" = true ∧
        strContains (pyLower ceSop1) "hypertension" = true) ∧
      (localReasoning ceP1 ceSop1).decision = "Approved" := by
  decide

/-- Claim C1, amended: checks 1, 2, 5 and 6 never change the running decision
except to set it to "Approved" (so only checks 3 and 4 can set "Denied"), but
a deny vote from check 3 or 4 is NOT final: whenever the approve condition of
check 5 or check 6 holds, the running decision after that check is "Approved",
whatever the earlier checks decided. -/
theorem C1_amended_override (dc pc prev sopU sop : String) (st : RState) :
    ((check_diagnosis dc sopU st).decision = st.decision ∨
        (check_diagnosis dc sopU st).decision = "Approved") ∧
      ((check_procedure pc sopU st).decision = st.decision ∨
        (check_procedure pc sopU st).decision = "Approved") ∧
      ((check_hypertension dc sop st).decision = st.decision ∨
        (check_hypertension dc sop st).decision = "Approved") ∧
      ((check_previous prev sop st).decision = st.decision ∨
        (check_previous prev sop st).decision = "Approved") ∧
      (strContains (pyLower dc) "i10" = true →
        strContains (pyLower sop) "hypertension" = true →
        (check_hypertension dc sop st).decision = "Approved") ∧
      (prev ≠ "" →
        strContains (pyLower sop) "previous" = true →
        (check_previous prev sop st).decision = "Approved") :=
  ⟨check_diagnosis_decision dc sopU st,
   check_procedure_decision pc sopU st,
   check_hypertension_decision dc sop st,
   check_previous_decision prev sop st,
   fun h1 h2 => check_hypertension_fires_approved dc sop st h1 h2,
   fun h1 h2 => check_previous_fires_approved prev sop st h1 h2⟩

/-- Witness for `C1_amended_override` at concrete inputs. -/
theorem C1_amended_override_witness :
    (check_hypertension "I10" ceSop1 ⟨"Denied", []⟩).decision = "Approved" ∧
      (check_previous "99213" "previous procedures" ⟨"Denied", []⟩).decision = "Approved" :=
  ⟨(C1_amended_override "I10" "X" "p" "S" ceSop1 ⟨"Denied", []⟩).2.2.2.2.1
      (by decide) (by decide),
   (C1_amended_override "I10" "X" "99213" "S" "previous procedures" ⟨"Denied", []⟩).2.2.2.2.2
      (by decide) (by decide)⟩

/-- Claim C2, counterexample: the justification trail length is not fixed by
the rule set — on the all-defaults patient against text "A" only checks 1-2
emit entries (length 2, not 6), while on a 60-year-old against "AGE >50" the
age check also emits one (length 3). -/
theorem C2_counterexample :
    (localReasoningState emptyPatient "A").points.length = 2 ∧
      (localReasoningState ceP2 "AGE >50").points.length = 3 ∧
      (2 : ℕ) ≠ 6 := by
  decide

/-- Claim C2, amended: checks 1 and 2 each always append exactly one entry
(satisfied or unsatisfied); checks 3-6 append exactly one entry when they
vote and none when they abstain, so the trail length is 2 plus the number of
checks 3-6 that fire; and the reasoning string always ends with the single
trailing SOP-reference segment. -/
theorem C2_amended_trail (p : PatientData) (sop : String) :
    (localReasoningState p sop).points.length =
        2 + (if age_check_fires (p.age.getD 0) (pyUpper sop) = true then 1 else 0)
          + (if lab_check_fires (pyLower (p.lab_results.getD "")) (pyUpper sop) = true then 1 else 0)
          + (if hyp_check_fires (pyUpper (p.diagnosis_code.getD "")) sop = true then 1 else 0)
          + (if prev_check_fires (p.previous_procedures.getD "") sop = true then 1 else 0) ∧
      (localReasoning p sop).reasoning =
        String.intercalate " | " ((localReasoningState p sop).points.map JEntry.text)
          ++ " | Applied SOP: " ++ extract_sop_reference sop := by
  constructor
  · unfold localReasoningState
    rw [len_check_previous, len_check_hypertension, len_check_lab, len_check_age,
      len_check_procedure, len_check_diagnosis]
    simp only [List.length_nil]
  · have h := extract_sop_reference_ne_empty sop
    rw [localReasoning_reasoning, if_pos h]

/-- Claim C6, counterexample: with every patient field missing, the checks do
not all abstain — the defaulted empty diagnosis and procedure codes vote
approve by trivial substring containment, so the decision is "Approved"
rather than the all-abstain default "Denied". -/
theorem C6_counterexample :
    emptyPatient.diagnosis_code = none ∧
      emptyPatient.procedure_code = none ∧
      emptyPatient.age = none ∧
      (localReasoning emptyPatient "A").decision = "Approved" ∧
      "Approved" ≠ "Denied" := by
  decide

/-- Claim C6, amended: the decision engine is total — it always returns a
decision ("Approved" or "Denied"), never an error — and a lab marker present
without a parsable following number makes check 4 abstain (state unchanged:
no vote and no entry).  Missing fields are read with defaults and can still
vote (see the counterexample), rather than always abstaining. -/
theorem C6_amended_total (p : PatientData) (sop lab sopU : String) (st : RState)
    (hmark : strContains lab "hba1c" = true)
    (hnone : extract_lab_value lab "hba1c" = none) :
    ((localReasoning p sop).decision = "Approved" ∨
        (localReasoning p sop).decision = "Denied") ∧
      check_lab lab sopU st = st :=
  ⟨decision_total p sop, check_lab_abstains lab sopU st hmark hnone⟩

/-- Witness for `C6_amended_total` at concrete inputs (`"hba1c:x"` contains
the marker but no parsable number). -/
theorem C6_amended_total_witness :
    ((localReasoning emptyPatient "A").decision = "Approved" ∨
        (localReasoning emptyPatient "A").decision = "Denied") ∧
      check_lab "hba1c:x" "SOP" ⟨"Denied", []⟩ = ⟨"Denied", []⟩ :=
  C6_amended_total emptyPatient "A" "hba1c:x" "SOP" ⟨"Denied", []⟩ (by decide) (by decide)

/-- Claim C7: the decision function is deterministic — it is a pure function
of the (patient, policy text) pair, so equal inputs give the identical
result, decision and justification text. -/
theorem C7_deterministic (p1 p2 : PatientData) (s1 s2 : String)
    (hp : p1 = p2) (hs : s1 = s2) :
    localReasoning p1 s1 = localReasoning p2 s2 ∧
      (localReasoning p1 s1).decision = (localReasoning p2 s2).decision ∧
      (localReasoning p1 s1).reasoning = (localReasoning p2 s2).reasoning := by
  subst hp
  subst hs
  exact ⟨rfl, rfl, rfl⟩

/-- Witness for `C7_deterministic` at concrete inputs. -/
theorem C7_deterministic_witness :
    localReasoning ceP1 ceSop1 = localReasoning ceP1 ceSop1 ∧
      (localReasoning ceP1 ceSop1).decision = (localReasoning ceP1 ceSop1).decision ∧
      (localReasoning ceP1 ceSop1).reasoning = (localReasoning ceP1 ceSop1).reasoning :=
  C7_deterministic ceP1 ceP1 ceSop1 ceSop1 rfl rfl

/-- Claim C9: when the policy store has no text for the matched document id,
the pipeline substitutes the placeholder "No SOP content available" and still
reaches a real decision ("Approved" or "Denied"); the missing text never
fails the request. -/
theorem C9_missing_text_placeholder (sop_texts : List (String × String))
    (doc : String) (p : PatientData)
    (h : textLookup sop_texts doc = none) :
    resolve_sop_text sop_texts doc = "No SOP content available" ∧
      ((pipeline_decide sop_texts doc p).decision = "Approved" ∨
        (pipeline_decide sop_texts doc p).decision = "Denied") := by
  refine ⟨?_, ?_⟩
  · unfold resolve_sop_text
    rw [h]
    rfl
  · unfold pipeline_decide
    exact decision_total p _

/-- Witness for `C9_missing_text_placeholder` at concrete inputs. -/
theorem C9_missing_text_placeholder_witness :
    resolve_sop_text [("diabetes_sop.pdf", "HbA1c >7.0")] "missing.pdf" = "No SOP content available" ∧
      ((pipeline_decide [("diabetes_sop.pdf", "HbA1c >7.0")] "missing.pdf" ceP1).decision = "Approved" ∨
        (pipeline_decide [("diabetes_sop.pdf", "HbA1c >7.0")] "missing.pdf" ceP1).decision = "Denied") :=
  C9_missing_text_placeholder [("diabetes_sop.pdf", "HbA1c >7.0")] "missing.pdf" ceP1 (by decide)

/-- Claim C10: when the patient's diagnosis code is absent or empty, the
defaulted empty string is a substring of every policy text, so check 1 votes
approve: the running decision after check 1 is "Approved" and the satisfied
diagnosis-match entry heads the justification trail, for every policy text. -/
theorem C10_empty_diagnosis_approves (p : PatientData) (sop : String)
    (h : p.diagnosis_code.getD "" = "") :
    (check_diagnosis (pyUpper (p.diagnosis_code.getD "")) (pyUpper sop)
        ⟨"Denied", []⟩).decision = "Approved" ∧
      (check_diagnosis (pyUpper (p.diagnosis_code.getD "")) (pyUpper sop)
        ⟨"Denied", []⟩).points =
        [⟨true, "✓ Diagnosis code  matches SOP criteria"⟩] ∧
      (localReasoningState p sop).points.head? =
        some ⟨true, "✓ Diagnosis code  matches SOP criteria"⟩ := by
  have hdc : pyUpper (p.diagnosis_code.getD "") = "" := by rw [h]; rfl
  have hst1 : check_diagnosis (pyUpper (p.diagnosis_code.getD "")) (pyUpper sop)
      ⟨"Denied", []⟩ =
      ⟨"Approved", [⟨true, "✓ Diagnosis code  matches SOP criteria"⟩]⟩ := by
    rw [hdc]
    unfold check_diagnosis
    rw [if_pos (Or.inl (strContains_empty_needle (pyUpper sop)))]
    simp [take3]
  refine ⟨by rw [hst1], by rw [hst1], ?_⟩
  unfold localReasoningState
  obtain ⟨t2, h2⟩ := points_ext_procedure (p.procedure_code.getD "") (pyUpper sop)
    (check_diagnosis (pyUpper (p.diagnosis_code.getD "")) (pyUpper sop) ⟨"Denied", []⟩)
  obtain ⟨t3, h3⟩ := points_ext_age (p.age.getD 0) (pyUpper sop) _
  obtain ⟨t4, h4⟩ := points_ext_lab (pyLower (p.lab_results.getD "")) (pyUpper sop) _
  obtain ⟨t5, h5⟩ := points_ext_hypertension (pyUpper (p.diagnosis_code.getD "")) sop _
  obtain ⟨t6, h6⟩ := points_ext_previous (p.previous_procedures.getD "") sop _
  rw [h6, h5, h4, h3, h2, hst1]
  simp

/-- Witness for `C10_empty_diagnosis_approves` at concrete inputs. -/
theorem C10_empty_diagnosis_approves_witness :
    (check_diagnosis (pyUpper (emptyPatient.diagnosis_code.getD "")) (pyUpper "ZZZ")
        ⟨"Denied", []⟩).decision = "Approved" ∧
      (check_diagnosis (pyUpper (emptyPatient.diagnosis_code.getD "")) (pyUpper "ZZZ")
        ⟨"Denied", []⟩).points =
        [⟨true, "✓ Diagnosis code  matches SOP criteria"⟩] ∧
      (localReasoningState emptyPatient "ZZZ").points.head? =
        some ⟨true, "✓ Diagnosis code  matches SOP criteria"⟩ :=
  C10_empty_diagnosis_approves emptyPatient "ZZZ" (by decide)

/-- Claim C8: for empty or whitespace-only input text, `create_embedding`
returns the zero vector of the model's dimensionality without invoking the
underlying model (the result does not depend on `encode`). -/
theorem C8_zero_vector (dim : ℕ) (encode : String → List ℚ) (text : String)
    (h : ∀ c ∈ text.toList, isPySpace c = true) :
    create_embedding dim encode text = List.replicate dim 0 := by
  unfold create_embedding
  rw [if_pos ((pyStrip_eq_empty_iff text).mpr h)]

/-- Witness for `C8_zero_vector` at concrete inputs (a whitespace-only text
and a model that would return a nonzero vector if invoked). -/
theorem C8_zero_vector_witness :
    create_embedding 4 (fun _ => [9, 9, 9, 9]) " \t " = List.replicate 4 0 :=
  C8_zero_vector 4 (fun _ => [9, 9, 9, 9]) " \t " (by decide)

theorem search_some (edim d : ℕ) (vecs : List (List ℚ)) (dmap : List (ℕ × String))
    (q : List ℚ) (k : ℕ) :
    search ⟨edim, some ⟨d, vecs⟩, dmap⟩ q k =
      Except.ok ((searchFlat ⟨d, vecs⟩ q k).map Prod.fst,
        (searchFlat ⟨d, vecs⟩ q k).map Prod.snd,
        (searchFlat ⟨d, vecs⟩ q k).map (fun p =>
          match mapLookup dmap p.2 with
          | some n => n
          | none => "Document_" ++ toString p.2)) := rfl

/-- Claim C3, counterexample: an index built from N = 1 vector, searched with
k = 2, returns 2 result slots — not min(2, 1) = 1 — the extra slot being the
faiss padding entry with label -1, rendered "Document_-1". -/
theorem C3_counterexample :
    build_index (initManager 1) mtx1 (some ["a"]) = Except.ok builtM1 ∧
      (search builtM1 [0] 2).toOption.map (fun r => (r.1.length, r.2.1, r.2.2)) =
        some (2, [0, -1], ["a", "Document_-1"]) ∧
      (2 : ℕ) ≠ min 2 1 := by
  refine ⟨rfl, rfl, by decide⟩

/-- Claim C3, amended: `search` with k ≥ 1 on a built index never raises and
returns exactly k (not min(k, N)) result slots; the first min(k, N) distances
are sorted by non-decreasing distance, and the remaining k - min(k, N) labels
are the faiss padding value -1; searching with k > N pads rather than
truncates. -/
theorem C3_amended_search (dim : ℕ) (mtx : NpMatrix) (names : Option (List String))
    (m : FAISSManager) (q : List ℚ) (k : ℕ)
    (hb : build_index (initManager dim) mtx names = Except.ok m)
    (hq : q.length = dim) (hk : 1 ≤ k) :
    ∃ dists idxs docs,
      search m q k = Except.ok (dists, idxs, docs) ∧
      dists.length = k ∧ idxs.length = k ∧ docs.length = k ∧
      List.Sorted (fun a b : ℚ => a ≤ b) (dists.take (min k mtx.rows.length)) ∧
      idxs.drop (min k mtx.rows.length) = List.replicate (k - min k mtx.rows.length) (-1) := by
  unfold build_index at hb
  split at hb
  · exact absurd hb (by simp)
  · rw [Except.ok.injEq] at hb
    subst hb
    rw [search_some]
    refine ⟨_, _, _, rfl, ?_, ?_, ?_, ?_, ?_⟩
    · simp [length_searchFlat]
    · simp [length_searchFlat]
    · simp [length_searchFlat]
    · -- sortedness of the first min(k, N) distances
      have hsorted := List.sorted_insertionSort distLE
        ((enumFromIdx 0 mtx.rows).map (fun p => (sqDist q p.2, (p.1 : Int))))
      have htake := List.Pairwise.sublist (List.take_sublist k _) hsorted
      have hlen1 : (((List.insertionSort distLE
          ((enumFromIdx 0 mtx.rows).map (fun p => (sqDist q p.2, (p.1 : Int))))).take k).map
            Prod.fst).length = min k mtx.rows.length := by
        simp [List.length_take, len_enumFromIdx]
      unfold searchFlat
      rw [List.map_append, ← hlen1, List.take_left]
      exact List.pairwise_map.mpr htake
    · have hlen2 : (((List.insertionSort distLE
          ((enumFromIdx 0 mtx.rows).map (fun p => (sqDist q p.2, (p.1 : Int))))).take k).map
            Prod.snd).length = min k mtx.rows.length := by
        simp [List.length_take, len_enumFromIdx]
      have harith : k - mtx.rows.length = k - min k mtx.rows.length := by omega
      unfold searchFlat
      rw [List.map_append, List.map_replicate]
      rw [show ((FAISS_PAD_DIST : ℚ), (-1 : Int)).2 = (-1 : Int) from rfl]
      rw [← harith, ← hlen2]
      exact List.drop_left _ _

/-- Witness for `C3_amended_search` at concrete inputs. -/
theorem C3_amended_search_witness :
    ∃ dists idxs docs,
      search builtM2 [0] 3 = Except.ok (dists, idxs, docs) ∧
      dists.length = 3 ∧ idxs.length = 3 ∧ docs.length = 3 ∧
      List.Sorted (fun a b : ℚ => a ≤ b) (dists.take (min 3 mtx2.rows.length)) ∧
      idxs.drop (min 3 mtx2.rows.length) = List.replicate (3 - min 3 mtx2.rows.length) (-1) :=
  C3_amended_search 1 mtx2 (some ["a", "b"]) builtM2 [0] 3 rfl rfl (by decide)

/-- Claim C4, counterexample: a successfully built index holding zero
documents does NOT fail on search — it returns a padding result (label -1,
name "Document_-1") that lets the caller proceed silently. -/
theorem C4_counterexample :
    build_index (initManager 1) mtx0 none = Except.ok builtM0 ∧
      search builtM0 [0] 1 = Except.ok ([FAISS_PAD_DIST], [-1], ["Document_-1"]) :=
  ⟨rfl, rfl⟩

/-- Claim C4, amended: searching a manager whose index was never built fails
with the "Index not initialized" error, but searching a BUILT index that
contains zero documents succeeds, returning k sentinel slots with label -1
and name "Document_-1" instead of failing. -/
theorem C4_amended_not_ready (m : FAISSManager) (q : List ℚ) (k : ℕ) (hk : 1 ≤ k) :
    (m.index = none →
      search m q k = Except.error "Index not initialized. Call build_index() first.") ∧
    (∀ d : ℕ, m.index = some ⟨d, []⟩ → q.length = d →
      search m q k = Except.ok (List.replicate k FAISS_PAD_DIST,
        List.replicate k (-1), List.replicate k "Document_-1")) := by
  obtain ⟨edim, idx, dmap⟩ := m
  constructor
  · intro h
    simp only at h
    rw [h]
    rfl
  · intro d hidx hq
    simp only at hidx
    rw [hidx, search_some]
    have hres : searchFlat ⟨d, []⟩ q k = List.replicate k (FAISS_PAD_DIST, -1) := by
      unfold searchFlat
      simp [enumFromIdx]
    rw [hres]
    have hdoc : ((List.replicate k ((FAISS_PAD_DIST : ℚ), (-1 : Int))).map (fun p =>
        match mapLookup dmap p.2 with
        | some n => n
        | none => "Document_" ++ toString p.2)) = List.replicate k "Document_-1" := by
      rw [List.map_replicate]
      rw [show (match mapLookup dmap (-1 : Int) with
          | some n => n
          | none => "Document_" ++ toString (-1 : Int)) = "Document_" ++ toString (-1 : Int) by
        rw [mapLookup_neg_one]]
      rfl
    rw [hdoc, List.map_replicate, List.map_replicate]

/-- Witness for `C4_amended_not_ready`: both branches at concrete inputs. -/
theorem C4_amended_not_ready_witness :
    search (initManager 2) [0, 0] 1 =
        Except.error "Index not initialized. Call build_index() first." ∧
      search builtM0 [0] 1 = Except.ok (List.replicate 1 FAISS_PAD_DIST,
        List.replicate 1 (-1), List.replicate 1 "Document_-1") :=
  ⟨(C4_amended_not_ready (initManager 2) [0, 0] 1 (by decide)).1 rfl,
   (C4_amended_not_ready builtM0 [0] 1 (by decide)).2 1 rfl rfl⟩

/-- Claim C5, counterexample: `build_index` with 2 vectors but only 1 document
name succeeds silently — no length check — registering 1 identifier against 2
stored vectors. -/
theorem C5_counterexample :
    build_index (initManager 1) mtx2 (some ["a"]) = Except.ok builtM2short ∧
      builtM2short.document_map.length = 1 ∧
      mtx2.rows.length = 2 ∧
      builtM2short.document_map.length ≠ mtx2.rows.length :=
  ⟨rfl, rfl, rfl, by decide⟩

/-- Claim C5, amended: `build_index` fails exactly on a dimensionality
mismatch (and even then via an IndexError escaping from the buggy
`shape[11]` in the error message, not the intended ValueError); the
vectors/ids length precondition is never checked — the map registers exactly
the given identifiers, in input order, whatever the vector count; with no
names (or an empty list) the fresh manager's map stays empty. -/
theorem C5_amended_build (dim : ℕ) (mtx : NpMatrix) (names : Option (List String)) :
    (mtx.cols ≠ dim →
      build_index (initManager dim) mtx names =
        Except.error "IndexError: tuple index out of range") ∧
    (∀ ns, mtx.cols = dim → names = some ns → ns ≠ [] →
      build_index (initManager dim) mtx names =
        Except.ok ⟨dim, some ⟨dim, mtx.rows⟩, enumFromIdx 0 ns⟩ ∧
      (enumFromIdx 0 ns).length = ns.length ∧
      (enumFromIdx 0 ns).map Prod.snd = ns) ∧
    (mtx.cols = dim → names = none →
      build_index (initManager dim) mtx names = Except.ok ⟨dim, some ⟨dim, mtx.rows⟩, []⟩) := by
  refine ⟨?_, ?_, ?_⟩
  · intro h
    unfold build_index
    rw [if_pos (show mtx.cols ≠ (initManager dim).embedding_dim from h)]
  · intro ns hcols hn hne
    subst hn
    refine ⟨?_, len_enumFromIdx 0 ns, map_snd_enumFromIdx 0 ns⟩
    unfold build_index
    rw [if_neg (fun hc => hc hcols)]
    have hemp : ns.isEmpty = false := by
      cases ns with
      | nil => exact absurd rfl hne
      | cons a t => rfl
    simp [initManager, hemp, hcols]
  · intro hcols hn
    subst hn
    unfold build_index
    rw [if_neg (fun hc => hc hcols)]
    simp [initManager, hcols]

/-- Witness for `C5_amended_build`: all three branches at concrete inputs. -/
theorem C5_amended_build_witness :
    build_index (initManager 2) mtx2 none =
        Except.error "IndexError: tuple index out of range" ∧
      (build_index (initManager 1) mtx2 (some ["a", "b"]) =
          Except.ok ⟨1, some ⟨1, mtx2.rows⟩, enumFromIdx 0 ["a", "b"]⟩ ∧
        (enumFromIdx 0 ["a", "b"]).length = (["a", "b"] : List String).length ∧
        (enumFromIdx 0 ["a", "b"]).map Prod.snd = ["a", "b"]) ∧
      build_index (initManager 1) mtx2 none = Except.ok ⟨1, some ⟨1, mtx2.rows⟩, []⟩ :=
  ⟨(C5_amended_build 2 mtx2 none).1 (by decide),
   (C5_amended_build 1 mtx2 (some ["a", "b"])).2.1 ["a", "b"] rfl rfl (by decide),
   (C5_amended_build 1 mtx2 none).2.2 rfl rfl⟩

end PreAuth
